import Mathlib

/-!
Verification of the dual-tree nonparametric Bayes classifier
(`src/fastlib/u/rriegel/nbc/nbc.cc`).

Doubles are modelled as rationals, vectors as lists of rationals.
Geometry primitives (`DHrectBound`, `EpanKernel`) live outside the
provided sources, so they are modelled from the specification text;
everything in namespace `Nbc` is translated directly from `nbc.cc`.
-/

namespace Nbc

/-- Modelled from the spec: `DRange`, a closed interval of doubles, used both
for per-dimension bound extents and for density intervals. -/
structure DRange where
  lo : ℚ
  hi : ℚ
deriving DecidableEq, Repr

/-- Interval addition (fastlib `DRange::operator+=` on another range). -/
def DRange.add (a b : DRange) : DRange :=
  ⟨a.lo + b.lo, a.hi + b.hi⟩

/-- Modelled from the spec: `EpanKernel`, the Epanechnikov kernel, stored by
its squared bandwidth. -/
structure Kernel where
  bsq : ℚ
deriving DecidableEq, Repr

/-- Modelled from the spec: the kernel accessor `bandwidth_sq()`. -/
def Kernel.bandwidth_sq (k : Kernel) : ℚ := k.bsq

/-- Modelled from the spec: the kernel accessor `inv_bandwidth_sq()`. -/
def Kernel.inv_bandwidth_sq (k : Kernel) : ℚ := 1 / k.bsq

/-- Modelled from the spec: `EpanKernel::EvalUnnormOnSq`, the unnormalized
Epanechnikov profile `max(0, 1 - d²/h²)` evaluated on a squared distance. -/
def Kernel.EvalUnnormOnSq (k : Kernel) (sqdist : ℚ) : ℚ :=
  max 0 (1 - sqdist * k.inv_bandwidth_sq)

/-- Modelled from the spec: `DHrectBound<2>`, an axis-aligned box stored as one
interval per dimension. -/
abbrev Bound := List DRange

/-- Modelled from the spec: per-dimension minimum distance from an interval to
a coordinate (zero when the coordinate lies inside the interval). -/
def DRange.minGapTo (r : DRange) (x : ℚ) : ℚ :=
  max (max (r.lo - x) (x - r.hi)) 0

/-- Modelled from the spec: per-dimension maximum distance from an interval to
a coordinate. -/
def DRange.maxGapTo (r : DRange) (x : ℚ) : ℚ :=
  max (r.hi - x) (x - r.lo)

/-- Modelled from the spec: `DHrectBound::MinDistanceSq` against a point:
minimum squared Euclidean distance from any point of the box to the point. -/
def Bound.MinDistanceSq (b : Bound) (p : List ℚ) : ℚ :=
  (List.zipWith (fun r x => (r.minGapTo x) ^ 2) b p).sum

/-- Modelled from the spec: `DHrectBound::MaxDistanceSq` against a point:
maximum squared Euclidean distance from any point of the box to the point. -/
def Bound.MaxDistanceSq (b : Bound) (p : List ℚ) : ℚ :=
  (List.zipWith (fun r x => (r.maxGapTo x) ^ 2) b p).sum

/-- Modelled from the spec: per-dimension minimum gap between two intervals. -/
def DRange.minGapToR (a b : DRange) : ℚ :=
  max (max (a.lo - b.hi) (b.lo - a.hi)) 0

/-- Modelled from the spec: per-dimension maximum gap between two intervals. -/
def DRange.maxGapToR (a b : DRange) : ℚ :=
  max (a.hi - b.lo) (b.hi - a.lo)

/-- Modelled from the spec: `DHrectBound::MinDistanceSq` against another box:
minimum squared Euclidean distance between any pair of points of the boxes. -/
def Bound.MinDistanceSqB (a b : Bound) : ℚ :=
  (List.zipWith (fun r s => (r.minGapToR s) ^ 2) a b).sum

/-- Modelled from the spec: `DHrectBound::MaxDistanceSq` against another box:
maximum squared Euclidean distance between any pair of points of the boxes. -/
def Bound.MaxDistanceSqB (a b : Bound) : ℚ :=
  (List.zipWith (fun r s => (r.maxGapToR s) ^ 2) a b).sum

/-- Membership of a point in a box: matching dimension and per-dimension
containment. -/
def inBound (q : List ℚ) (b : Bound) : Prop :=
  List.Forall₂ (fun x r => r.lo ≤ x ∧ x ≤ r.hi) q b

/-- Dot product of two coordinate vectors (`la::Dot`). -/
def dot (a b : List ℚ) : ℚ :=
  (List.zipWith (· * ·) a b).sum

/-- Squared Euclidean distance between two points
(`la::DistanceSqEuclidean`). -/
def distSq (a b : List ℚ) : ℚ :=
  (List.zipWith (fun x y => (x - y) ^ 2) a b).sum

/-- The four-valued label flag set (`enum Label`, nbc.cc:375). -/
def LAB_NEITHER : Nat := 0

/-- Label value for the positive class (nbc.cc:377). -/
def LAB_POS : Nat := 1

/-- Label value for the negative class (nbc.cc:378). -/
def LAB_NEG : Nat := 2

/-- Label value when both classes are still possible (nbc.cc:379). -/
def LAB_EITHER : Nat := 3

/-- Moment information used by thresholded KDE (nbc.cc:186): point count,
coordinate-wise mass and summed squared norms of a set of points. -/
structure MomentInfo where
  mass : List ℚ
  sumsq : ℚ
  count : ℕ
deriving DecidableEq, Repr

/-- Merge of two moment summaries (`MomentInfo::Add`, nbc.cc:211-221): a no-op
when the incoming count is zero, otherwise fieldwise accumulation. -/
def MomentInfo.Add (m other : MomentInfo) : MomentInfo :=
  if other.count ≠ 0 then
    { mass := List.zipWith (· + ·) m.mass other.mass
      sumsq := m.sumsq + other.sumsq
      count := m.count + other.count }
  else m

/-- Emptiness test (`MomentInfo::is_empty`, nbc.cc:265). -/
def MomentInfo.is_empty (m : MomentInfo) : Bool :=
  m.count == 0

/-- Well-formedness of a moment summary of `dim`-dimensional points: the mass
vector has the right length and an empty summary carries zero fields (these
hold for every `MomentInfo` the program builds, which accumulate actual
points starting from `Reset`). -/
def MomentInfo.wf (m : MomentInfo) (dim : ℕ) : Prop :=
  m.mass.length = dim ∧ (m.count = 0 → m.mass = List.replicate dim 0 ∧ m.sumsq = 0)

/-- Exact kernel sum against one query point
(`MomentInfo::ComputeKernelSum(param, q)`, nbc.cc:227-233). The source refers
to `param.kernel`; `Param` holds one kernel per class, so the kernel is passed
explicitly here and each call site passes its class's kernel. -/
def MomentInfo.ComputeKernelSum (m : MomentInfo) (k : Kernel) (q : List ℚ) : ℚ :=
  let quadratic_term : ℚ :=
    m.count * dot q q - 2 * dot q m.mass + m.sumsq
  m.count - quadratic_term * k.inv_bandwidth_sq

/-- Kernel sum from a squared distance to the centroid and the centroid's
self dot product (`MomentInfo::ComputeKernelSum(param, distance_squared,
center_dot_center)`, nbc.cc:235-244). -/
def MomentInfo.ComputeKernelSumD (m : MomentInfo) (k : Kernel)
    (distance_squared center_dot_center : ℚ) : ℚ :=
  let quadratic_term : ℚ :=
    ((distance_squared - center_dot_center) * m.count + m.sumsq)
  (-quadratic_term) * k.inv_bandwidth_sq + m.count

/-- Interval kernel sum against a query box
(`MomentInfo::ComputeKernelSumRange`, nbc.cc:246-263): the closed form
evaluated at the extreme squared distances between the box and the centroid
`mass/count`. -/
def MomentInfo.ComputeKernelSumRange (m : MomentInfo) (k : Kernel)
    (query_bound : Bound) : DRange :=
  let center_dot_center : ℚ := dot m.mass m.mass / m.count / m.count
  let center : List ℚ := m.mass.map (fun x => (1 / (m.count : ℚ)) * x)
  { lo := m.ComputeKernelSumD k (query_bound.MaxDistanceSq center) center_dot_center
    hi := m.ComputeKernelSumD k (query_bound.MinDistanceSq center) center_dot_center }

/-- Debug-build events of `ComputeKernelSumRange` that matter for the
assertion ordering: division-by-`count` arithmetic and the
`DEBUG_ASSERT(count != 0)` check. -/
inductive CKREvent where
  | divByCount : CKREvent
  | assertPass : CKREvent
  | assertFail : CKREvent
deriving DecidableEq, Repr

/-- Debug-build run of `ComputeKernelSumRange` (nbc.cc:246-263): the event
trace in statement order, and the returned range (`none` when the
`DEBUG_ASSERT` at nbc.cc:252 aborts the run). The `center_dot_center`
computation at nbc.cc:250 divides by `count` twice; the `la::Scale` at
nbc.cc:255 divides by `count` once more; both divisions sit around the
assertion exactly as in the source. -/
def MomentInfo.ComputeKernelSumRangeDbg (m : MomentInfo) (k : Kernel)
    (query_bound : Bound) : List CKREvent × Option DRange :=
  if m.count ≠ 0 then
    ([CKREvent.divByCount, CKREvent.assertPass, CKREvent.divByCount],
      some (m.ComputeKernelSumRange k query_bound))
  else
    ([CKREvent.divByCount, CKREvent.assertFail], none)

/-- Per-node statistic (`struct NbcStat`, nbc.cc:283): class-wise moments,
class-wise bounding boxes, class counts and prior ranges. -/
structure NbcStat where
  moment_info_pos : MomentInfo
  moment_info_neg : MomentInfo
  bound_pos : Bound
  bound_neg : Bound
  count_pos : ℕ
  count_neg : ℕ
  pi_pos : DRange
  pi_neg : DRange
deriving DecidableEq, Repr

/-- A THOR tree node: its bounding box together with its statistic.  Both
`QNode` and `RNode` instantiate `ThorNode<Bound, NbcStat>` (nbc.cc:369-373). -/
structure ThorNode where
  bound : Bound
  stat : NbcStat
deriving DecidableEq, Repr

/-- Algorithm parameters (`struct Param`, nbc.cc:98): threshold-adjusted
normalization ranges, one kernel and one reference count per class. -/
structure Param where
  const_pos : DRange
  const_neg : DRange
  kernel_pos : Kernel
  kernel_neg : Kernel
  count_pos : ℕ
  count_neg : ℕ
deriving DecidableEq, Repr

/-- Postponed contribution for a query subtree (`struct QPostponed`,
nbc.cc:385).  The struct declaration lists a single `moment_info`, but every
use site (`ConsiderPairIntrinsic`, `QResult::ApplyPostponed`,
`QSummaryResult::ApplyPostponed`) reads and writes the per-class pair
`moment_info_pos`/`moment_info_neg`, so the pair is what is modelled. -/
structure QPostponed where
  moment_info_pos : MomentInfo
  moment_info_neg : MomentInfo
  label : ℕ
deriving DecidableEq, Repr

/-- Merge of postponed contributions (`QPostponed::ApplyPostponed`,
nbc.cc:408-412), release semantics: the label narrows by bitwise AND and the
moments merge. -/
def QPostponed.ApplyPostponed (p other : QPostponed) : QPostponed :=
  { moment_info_pos := p.moment_info_pos.Add other.moment_info_pos
    moment_info_neg := p.moment_info_neg.Add other.moment_info_neg
    label := p.label &&& other.label }

/-- The `DEBUG_ASSERT_MSG(label != LAB_NEITHER, "Conflicting labels?")` check
of `QPostponed::ApplyPostponed` (nbc.cc:410): false exactly when the
AND-narrowed label is `LAB_NEITHER`. -/
def QPostponed.applyAssertOk (p other : QPostponed) : Prop :=
  p.label &&& other.label ≠ LAB_NEITHER

/-- Speculative density increment for a node pair (`struct Delta`,
nbc.cc:418). -/
structure Delta where
  d_density_pos : DRange
  d_density_neg : DRange
deriving DecidableEq, Repr

/-- Per-query-point result (`struct QResult`, nbc.cc:435). -/
structure QResult where
  density_pos : ℚ
  density_neg : ℚ
  label : ℕ
deriving DecidableEq, Repr

/-- Application of a postponed contribution to one point's result
(`QResult::ApplyPostponed`, nbc.cc:473-487), release semantics: AND-narrow
the label, then fold each non-empty class moment through the exact kernel
sum at the query point. -/
def QResult.ApplyPostponed (r : QResult) (param : Param)
    (postponed : QPostponed) (q : List ℚ) : QResult :=
  { density_pos :=
      if ¬ postponed.moment_info_pos.is_empty then
        r.density_pos + postponed.moment_info_pos.ComputeKernelSum param.kernel_pos q
      else r.density_pos
    density_neg :=
      if ¬ postponed.moment_info_neg.is_empty then
        r.density_neg + postponed.moment_info_neg.ComputeKernelSum param.kernel_neg q
      else r.density_neg
    label := r.label &&& postponed.label }

/-- The `DEBUG_ASSERT(label != LAB_NEITHER)` check of
`QResult::ApplyPostponed` (nbc.cc:477). -/
def QResult.applyAssertOk (r : QResult) (postponed : QPostponed) : Prop :=
  r.label &&& postponed.label ≠ LAB_NEITHER

/-- Interval summary of the results in a query subtree
(`struct QSummaryResult`, nbc.cc:490). -/
structure QSummaryResult where
  density_pos : DRange
  density_neg : DRange
  label : ℕ
deriving DecidableEq, Repr

/-- Application of a postponed contribution to a subtree summary
(`QSummaryResult::ApplyPostponed`, nbc.cc:555-576).  The local
`bool change_made` is declared without an initializer and only the three
conditional branches assign it, so it is modelled as an `Option Bool` that
starts out `none` (uninitialized) and becomes `some true` in each branch. -/
def QSummaryResult.ApplyPostponed (s : QSummaryResult) (param : Param)
    (postponed : QPostponed) (q_node : ThorNode) : QSummaryResult × Option Bool :=
  let change_made : Option Bool := none
  let r1 : QSummaryResult × Option Bool :=
    if postponed.label ≠ LAB_EITHER then
      ({ s with label := s.label &&& postponed.label }, some true)
    else (s, change_made)
  let dpos : DRange :=
    (r1.1.density_pos.add
      (postponed.moment_info_pos.ComputeKernelSumRange param.kernel_pos q_node.bound))
  let r2 : QSummaryResult × Option Bool :=
    if ¬ postponed.moment_info_pos.is_empty then
      ({ r1.1 with density_pos := dpos }, some true)
    else r1
  let dneg : DRange :=
    (r2.1.density_neg.add
      (postponed.moment_info_neg.ComputeKernelSumRange param.kernel_neg q_node.bound))
  let r3 : QSummaryResult × Option Bool :=
    if ¬ postponed.moment_info_neg.is_empty then
      ({ r2.1 with density_neg := dneg }, some true)
    else r2
  r3

/-- Whole-run counters (`struct GlobalResult`, nbc.cc:582). -/
structure GlobalResult where
  count_pos : ℕ
  count_unknown : ℕ
deriving DecidableEq, Repr

/-- The three outcomes of `Algorithm::ConsiderPairIntrinsic`: the two `return
false` paths (nbc.cc:812 exclusion, nbc.cc:841 inclusion) and the `return
true` path (nbc.cc:850 approximate). -/
inductive CPIOutcome where
  | exclusion : CPIOutcome
  | inclusion : CPIOutcome
  | approximate : CPIOutcome
deriving DecidableEq, Repr

/-- The boolean the source actually returns for each outcome. -/
def CPIOutcome.retVal : CPIOutcome → Bool
  | CPIOutcome.approximate => true
  | _ => false

/-- Per-class kernel upper bound computed by `ConsiderPairIntrinsic` for the
positive class (nbc.cc:794-800): the kernel at the minimum squared distance
between the positive reference bound and the query bound, or zero when the
class is empty. -/
def d_density_pos_hi (param : Param) (q_node r_node : ThorNode) : ℚ :=
  if r_node.stat.count_pos > 0 then
    param.kernel_pos.EvalUnnormOnSq (r_node.stat.bound_pos.MinDistanceSqB q_node.bound)
  else 0

/-- Per-class kernel upper bound for the negative class (nbc.cc:802-808). -/
def d_density_neg_hi (param : Param) (q_node r_node : ThorNode) : ℚ :=
  if r_node.stat.count_neg > 0 then
    param.kernel_neg.EvalUnnormOnSq (r_node.stat.bound_neg.MinDistanceSqB q_node.bound)
  else 0

namespace Algorithm

/-- Intrinsic pair-pruning decision (`Algorithm::ConsiderPairIntrinsic`,
nbc.cc:785-851), with its writable outputs threaded explicitly.  The
approximate branch reproduces the source statements one by one: the `Init`
at nbc.cc:845, the chained assignment `delta->d_density_pos.hi =
delta->d_density_neg.lo = 0` at nbc.cc:846-847 (which overwrites the `hi`
just set by `Init`), and the assignment at nbc.cc:848. -/
def ConsiderPairIntrinsic (param : Param) (q_node r_node : ThorNode)
    (delta : Delta) (global_result : GlobalResult) (q_postponed : QPostponed) :
    CPIOutcome × Delta × GlobalResult × QPostponed :=
  let dp : ℚ := d_density_pos_hi param q_node r_node
  let dn : ℚ := d_density_neg_hi param q_node r_node
  if dp = 0 ∧ dn = 0 then
    (CPIOutcome.exclusion, delta, global_result, q_postponed)
  else if r_node.bound.MaxDistanceSqB q_node.bound < param.kernel_pos.bandwidth_sq then
    let p1 : QPostponed :=
      if r_node.stat.count_pos > 0 then
        { q_postponed with
            moment_info_pos := q_postponed.moment_info_pos.Add r_node.stat.moment_info_pos }
      else q_postponed
    let p2 : QPostponed :=
      if r_node.stat.count_neg > 0 then
        { p1 with moment_info_neg := p1.moment_info_neg.Add r_node.stat.moment_info_neg }
      else p1
    (CPIOutcome.inclusion, delta, global_result, p2)
  else
    let delta1 : Delta :=
      { delta with d_density_pos := ⟨0, r_node.stat.count_pos * dp⟩ }
    let delta2 : Delta :=
      { delta1 with
          d_density_pos := { delta1.d_density_pos with hi := 0 }
          d_density_neg := { delta1.d_density_neg with lo := 0 } }
    let delta3 : Delta :=
      { delta2 with
          d_density_neg := { delta2.d_density_neg with hi := r_node.stat.count_neg * dn } }
    (CPIOutcome.approximate, delta3, global_result, q_postponed)

/-- Query-subtree termination decision (`Algorithm::ConsiderQueryTermination`,
nbc.cc:864-898), release semantics, returning the source's boolean and the
updated postponed state. -/
def ConsiderQueryTermination (param : Param) (q_node : ThorNode)
    (q_summary_result : QSummaryResult) (global_result : GlobalResult)
    (q_postponed : QPostponed) : Bool × QPostponed :=
  if q_summary_result.label ≠ LAB_EITHER then
    (false, { q_postponed with label := q_summary_result.label })
  else if param.const_pos.lo * q_summary_result.density_pos.lo * q_node.stat.pi_pos.lo >
      param.const_neg.hi * q_summary_result.density_neg.hi * q_node.stat.pi_neg.hi then
    (false, { q_postponed with label := LAB_POS })
  else if param.const_neg.lo * q_summary_result.density_neg.lo * q_node.stat.pi_neg.lo >
      param.const_pos.hi * q_summary_result.density_pos.hi * q_node.stat.pi_pos.hi then
    (false, { q_postponed with label := LAB_NEG })
  else
    (true, q_postponed)

end Algorithm

/-! Concrete one-dimensional instances used to evaluate the embedded code. -/

/-- An empty one-dimensional moment summary. -/
def exMempty : MomentInfo := ⟨[0], 0, 0⟩

/-- Parameters with both squared bandwidths equal to 2. -/
def exP1 : Param := ⟨⟨0, 0⟩, ⟨0, 0⟩, ⟨2⟩, ⟨2⟩, 1, 1⟩

/-- A query node whose bound is the single point 0. -/
def exQ1 : ThorNode := ⟨[⟨0, 0⟩], ⟨exMempty, exMempty, [⟨0, 0⟩], [⟨0, 0⟩], 0, 0, ⟨0, 0⟩, ⟨0, 0⟩⟩⟩

/-- A reference node holding one positive point at 1 and one negative point
at 3. -/
def exR1 : ThorNode :=
  ⟨[⟨1, 3⟩], ⟨⟨[1], 1, 1⟩, ⟨[3], 9, 1⟩, [⟨1, 1⟩], [⟨3, 3⟩], 1, 1, ⟨0, 0⟩, ⟨0, 0⟩⟩⟩

/-- A reference node with no points at all (both class counts zero). -/
def exRempty : ThorNode :=
  ⟨[⟨9, 9⟩], ⟨exMempty, exMempty, [⟨9, 9⟩], [⟨9, 9⟩], 0, 0, ⟨0, 0⟩, ⟨0, 0⟩⟩⟩

/-- A nonzero initial delta, to detect writes. -/
def exD0 : Delta := ⟨⟨5, 7⟩, ⟨5, 7⟩⟩

/-- Initial global result. -/
def exG0 : GlobalResult := ⟨0, 0⟩

/-- A postponed value carrying no information. -/
def exPost0 : QPostponed := ⟨exMempty, exMempty, LAB_EITHER⟩

/-- A postponed value whose label is narrowed to the positive class. -/
def exPostPos : QPostponed := ⟨exMempty, exMempty, LAB_POS⟩

/-- Parameters for the inclusion counterexample: the positive squared
bandwidth is 5 and the negative squared bandwidth is 1. -/
def exP3 : Param := ⟨⟨0, 0⟩, ⟨0, 0⟩, ⟨5⟩, ⟨1⟩, 1, 1⟩

/-- A reference node holding one positive point at 0 and one negative point
at 2. -/
def exR3 : ThorNode :=
  ⟨[⟨0, 2⟩], ⟨⟨[0], 0, 1⟩, ⟨[2], 4, 1⟩, [⟨0, 0⟩], [⟨2, 2⟩], 1, 1, ⟨0, 0⟩, ⟨0, 0⟩⟩⟩

/-- Parameters for the termination witness: all ranges degenerate at 1. -/
def exP4 : Param := ⟨⟨1, 1⟩, ⟨1, 1⟩, ⟨2⟩, ⟨2⟩, 1, 1⟩

/-- A query node whose prior ranges are degenerate at 1. -/
def exQ4 : ThorNode := ⟨[⟨0, 0⟩], ⟨exMempty, exMempty, [⟨0, 0⟩], [⟨0, 0⟩], 0, 0, ⟨1, 1⟩, ⟨1, 1⟩⟩⟩

/-- A summary with EITHER label whose positive density dominates. -/
def exS4 : QSummaryResult := ⟨⟨1, 1⟩, ⟨0, 0⟩, LAB_EITHER⟩

/-- A summary result with densities [0,1] each and EITHER label. -/
def exS0 : QSummaryResult := ⟨⟨0, 1⟩, ⟨0, 1⟩, LAB_EITHER⟩

/-- A one-class moment summary of the single point 2 (mass 2, squared norm
4). -/
def exM2 : MomentInfo := ⟨[2], 4, 1⟩

/-- A one-point moment summary of the point 1. -/
def exM1 : MomentInfo := ⟨[1], 1, 1⟩

/-- A one-point moment summary of the point 3. -/
def exM3 : MomentInfo := ⟨[3], 9, 1⟩

/-- A kernel with squared bandwidth 2. -/
def exK1 : Kernel := ⟨2⟩

/-- A one-dimensional unit box. -/
def exB1 : Bound := [⟨0, 1⟩]

/-- A fresh per-point result with EITHER label. -/
def exQres : QResult := ⟨0, 0, LAB_EITHER⟩

/-! Helper lemmas on lists, bitwise labels and the kernel closed form. -/

/-- Pointwise addition of lists is commutative. -/
theorem zipAdd_comm (x y : List ℚ) :
    List.zipWith (· + ·) x y = List.zipWith (· + ·) y x := by
  induction x generalizing y with
  | nil => cases y <;> rfl
  | cons a as ih =>
    cases y with
    | nil => rfl
    | cons b bs => simp [List.zipWith, add_comm, ih]

/-- Pointwise addition of lists is associative. -/
theorem zipAdd_assoc (x y z : List ℚ) :
    List.zipWith (· + ·) (List.zipWith (· + ·) x y) z =
      List.zipWith (· + ·) x (List.zipWith (· + ·) y z) := by
  induction x generalizing y z with
  | nil => rfl
  | cons a as ih =>
    cases y with
    | nil => rfl
    | cons b bs =>
      cases z with
      | nil => rfl
      | cons c cs => simp [List.zipWith, add_assoc, ih]

/-- Adding a zero vector of matching length on the left is the identity. -/
theorem zipAdd_zero_left (n : ℕ) (x : List ℚ) (h : x.length = n) :
    List.zipWith (· + ·) (List.replicate n 0) x = x := by
  induction x generalizing n with
  | nil => subst h; rfl
  | cons a as ih =>
    cases n with
    | zero => simp at h
    | succ k =>
      simp only [List.replicate, List.zipWith, zero_add, List.cons.injEq, true_and]
      exact ih k (by simpa using h)

/-- Adding a zero vector of matching length on the right is the identity. -/
theorem zipAdd_zero_right (n : ℕ) (x : List ℚ) (h : x.length = n) :
    List.zipWith (· + ·) x (List.replicate n 0) = x := by
  rw [zipAdd_comm]
  exact zipAdd_zero_left n x h

/-- For labels below 4, AND-narrowing a single-class label either keeps it or
collapses to zero. -/
theorem land_single_class (a b : ℕ) (ha : a < 4) (hb : b < 4)
    (hs : a = 1 ∨ a = 2) : a &&& b = a ∨ a &&& b = 0 := by
  interval_cases a <;> interval_cases b <;> revert hs <;> decide

/-- Dot product against a scaled vector pulls the scalar out. -/
theorem dot_map_smul (k : ℚ) (q m : List ℚ) :
    dot q (m.map (fun x => k * x)) = k * dot q m := by
  induction q generalizing m with
  | nil => simp [dot]
  | cons a as ih =>
    cases m with
    | nil => simp [dot]
    | cons b bs =>
      simp only [List.map_cons, dot, List.zipWith, List.sum_cons] at *
      rw [ih]
      ring

/-- Self dot product of a scaled vector pulls the square of the scalar out. -/
theorem dot_smul_self (k : ℚ) (m : List ℚ) :
    dot (m.map (fun x => k * x)) (m.map (fun x => k * x)) = k ^ 2 * dot m m := by
  induction m with
  | nil => simp [dot]
  | cons b bs ih =>
    simp only [List.map_cons, dot, List.zipWith, List.sum_cons] at *
    rw [ih]
    ring

/-- Expansion of the squared distance through dot products, for vectors of
equal length. -/
theorem distSq_expand (q c : List ℚ) (h : q.length = c.length) :
    distSq q c = dot q q - 2 * dot q c + dot c c := by
  induction q generalizing c with
  | nil =>
    cases c with
    | nil => simp [distSq, dot]
    | cons b bs => simp at h
  | cons a as ih =>
    cases c with
    | nil => simp at h
    | cons b bs =>
      simp only [distSq, dot, List.zipWith, List.sum_cons] at *
      rw [ih bs (by simpa using h)]
      ring

/-- Per-dimension soundness of the minimum gap: for a coordinate inside the
interval, the gap to any target is at most the actual distance. -/
theorem sq_minGap_le (r : DRange) (c x : ℚ) (h1 : r.lo ≤ x) (h2 : x ≤ r.hi) :
    (r.minGapTo c) ^ 2 ≤ (x - c) ^ 2 := by
  have hg0 : (0 : ℚ) ≤ r.minGapTo c := le_max_right _ _
  have hgle : r.minGapTo c ≤ |x - c| := by
    refine max_le (max_le ?_ ?_) (abs_nonneg _)
    · calc r.lo - c ≤ x - c := by linarith
        _ ≤ |x - c| := le_abs_self _
    · calc c - r.hi ≤ c - x := by linarith
        _ = -(x - c) := by ring
        _ ≤ |x - c| := neg_le_abs _
  calc (r.minGapTo c) ^ 2 ≤ |x - c| ^ 2 := pow_le_pow_left₀ hg0 hgle 2
    _ = (x - c) ^ 2 := sq_abs _

/-- Per-dimension soundness of the maximum gap: for a coordinate inside the
interval, the actual distance to any target is at most the maximum gap. -/
theorem sq_le_maxGap (r : DRange) (c x : ℚ) (h1 : r.lo ≤ x) (h2 : x ≤ r.hi) :
    (x - c) ^ 2 ≤ (r.maxGapTo c) ^ 2 := by
  have habs : |x - c| ≤ r.maxGapTo c := by
    refine abs_le.2 ⟨?_, ?_⟩
    · have : c - r.lo ≤ r.maxGapTo c := le_max_right _ _
      linarith
    · have : r.hi - c ≤ r.maxGapTo c := le_max_left _ _
      linarith
  calc (x - c) ^ 2 = |x - c| ^ 2 := (sq_abs _).symm
    _ ≤ (r.maxGapTo c) ^ 2 := pow_le_pow_left₀ (abs_nonneg _) habs 2

/-- Soundness of the box-to-point minimum distance: it underestimates the
distance from every point inside the box. -/
theorem minDistanceSq_le_distSq (b : Bound) (q c : List ℚ)
    (hq : inBound q b) (hlen : c.length = b.length) :
    Bound.MinDistanceSq b c ≤ distSq q c := by
  induction hq generalizing c with
  | nil =>
    cases c with
    | nil => simp [Bound.MinDistanceSq, distSq]
    | cons y ys => simp at hlen
  | @cons x r xs rs hxr htail ih =>
    cases c with
    | nil => simp at hlen
    | cons y ys =>
      simp only [Bound.MinDistanceSq, distSq, List.zipWith, List.sum_cons] at *
      exact add_le_add (sq_minGap_le r y x hxr.1 hxr.2) (ih ys (by simpa using hlen))

/-- Soundness of the box-to-point maximum distance: it overestimates the
distance from every point inside the box. -/
theorem distSq_le_maxDistanceSq (b : Bound) (q c : List ℚ)
    (hq : inBound q b) (hlen : c.length = b.length) :
    distSq q c ≤ Bound.MaxDistanceSq b c := by
  induction hq generalizing c with
  | nil =>
    cases c with
    | nil => simp [Bound.MaxDistanceSq, distSq]
    | cons y ys => simp at hlen
  | @cons x r xs rs hxr htail ih =>
    cases c with
    | nil => simp at hlen
    | cons y ys =>
      simp only [Bound.MaxDistanceSq, distSq, List.zipWith, List.sum_cons] at *
      exact add_le_add (sq_le_maxGap r y x hxr.1 hxr.2) (ih ys (by simpa using hlen))

/-- The closed-form kernel sum is antitone in the squared distance. -/
theorem computeKernelSumD_antitone (m : MomentInfo) (k : Kernel) (ccc d1 d2 : ℚ)
    (hk : 0 < k.bsq) (h : d1 ≤ d2) :
    m.ComputeKernelSumD k d2 ccc ≤ m.ComputeKernelSumD k d1 ccc := by
  have hinv : 0 ≤ k.inv_bandwidth_sq := by
    unfold Kernel.inv_bandwidth_sq
    positivity
  unfold MomentInfo.ComputeKernelSumD
  have hcount : (0 : ℚ) ≤ (m.count : ℚ) := Nat.cast_nonneg _
  have h3 : (d1 - ccc) * (m.count : ℚ) + m.sumsq ≤ (d2 - ccc) * (m.count : ℚ) + m.sumsq := by
    nlinarith
  have h5 : (-((d2 - ccc) * (m.count : ℚ) + m.sumsq)) * k.inv_bandwidth_sq ≤
      (-((d1 - ccc) * (m.count : ℚ) + m.sumsq)) * k.inv_bandwidth_sq :=
    mul_le_mul_of_nonneg_right (by linarith) hinv
  simpa using add_le_add_right h5 (m.count : ℚ)

/-- The point kernel sum agrees with the closed form evaluated at the squared
distance to the centroid and the centroid's self dot product. -/
theorem computeKernelSum_eq_closed_form (m : MomentInfo) (k : Kernel) (q : List ℚ)
    (hc : m.count ≠ 0) (hlen : q.length = m.mass.length) :
    m.ComputeKernelSum k q =
      m.ComputeKernelSumD k
        (distSq q (m.mass.map (fun x => (1 / (m.count : ℚ)) * x)))
        (dot m.mass m.mass / m.count / m.count) := by
  have hn : ((m.count : ℚ)) ≠ 0 := Nat.cast_ne_zero.2 hc
  have hlen2 : q.length = (m.mass.map (fun x => (1 / (m.count : ℚ)) * x)).length := by
    simpa using hlen
  unfold MomentInfo.ComputeKernelSum MomentInfo.ComputeKernelSumD
  rw [distSq_expand q _ hlen2, dot_map_smul, dot_smul_self]
  field_simp
  ring

/-! Claim theorems. -/

/-- C2: `ConsiderPairIntrinsic` declares Exclusion (its first `return false`,
so the caller must not recurse) if and only if both classes' kernel upper
bounds at the minimum distance between the class-specific reference bound and
the query bound are zero, a class with zero reference count contributing a
zero upper bound. -/
theorem considerPairIntrinsic_exclusion_iff_upper_bounds_zero
    (param : Param) (q_node r_node : ThorNode) (delta : Delta)
    (g : GlobalResult) (post : QPostponed) :
    ((Algorithm.ConsiderPairIntrinsic param q_node r_node delta g post).1 =
        CPIOutcome.exclusion ↔
      d_density_pos_hi param q_node r_node = 0 ∧
        d_density_neg_hi param q_node r_node = 0) ∧
    CPIOutcome.retVal CPIOutcome.exclusion = false := by
  refine ⟨?_, rfl⟩
  simp only [Algorithm.ConsiderPairIntrinsic]
  split_ifs with h1 h2 <;> simp_all

/-- Witness for C2 at a concrete empty reference node. -/
theorem considerPairIntrinsic_exclusion_iff_witness :
    ((Algorithm.ConsiderPairIntrinsic exP1 exQ1 exRempty exD0 exG0 exPost0).1 =
        CPIOutcome.exclusion ↔
      d_density_pos_hi exP1 exQ1 exRempty = 0 ∧
        d_density_neg_hi exP1 exQ1 exRempty = 0) ∧
    CPIOutcome.retVal CPIOutcome.exclusion = false :=
  considerPairIntrinsic_exclusion_iff_upper_bounds_zero exP1 exQ1 exRempty exD0 exG0 exPost0

/-- C9: `ConsiderPairIntrinsic` never modifies the global result, leaves the
delta untouched on both `return false` paths, changes the postponed state
only on the Inclusion path (which returns false), and leaves the postponed
state untouched on the Approximate path. -/
theorem considerPairIntrinsic_frame
    (param : Param) (q_node r_node : ThorNode) (delta : Delta)
    (g : GlobalResult) (post : QPostponed) :
    (Algorithm.ConsiderPairIntrinsic param q_node r_node delta g post).2.2.1 = g ∧
    ((Algorithm.ConsiderPairIntrinsic param q_node r_node delta g post).1 =
        CPIOutcome.exclusion →
      (Algorithm.ConsiderPairIntrinsic param q_node r_node delta g post).2.1 = delta ∧
        (Algorithm.ConsiderPairIntrinsic param q_node r_node delta g post).2.2.2 = post) ∧
    ((Algorithm.ConsiderPairIntrinsic param q_node r_node delta g post).1.retVal =
        false →
      (Algorithm.ConsiderPairIntrinsic param q_node r_node delta g post).2.1 = delta) ∧
    ((Algorithm.ConsiderPairIntrinsic param q_node r_node delta g post).2.2.2 ≠ post →
      (Algorithm.ConsiderPairIntrinsic param q_node r_node delta g post).1 =
          CPIOutcome.inclusion ∧
        (Algorithm.ConsiderPairIntrinsic param q_node r_node delta g post).1.retVal =
          false) ∧
    ((Algorithm.ConsiderPairIntrinsic param q_node r_node delta g post).1 =
        CPIOutcome.approximate →
      (Algorithm.ConsiderPairIntrinsic param q_node r_node delta g post).2.2.2 = post) := by
  simp only [Algorithm.ConsiderPairIntrinsic]
  split_ifs <;> simp_all [CPIOutcome.retVal]

/-- Witness for C9 at a concrete Exclusion input. -/
theorem considerPairIntrinsic_frame_witness :
    (Algorithm.ConsiderPairIntrinsic exP1 exQ1 exRempty exD0 exG0 exPost0).2.1 = exD0 ∧
    (Algorithm.ConsiderPairIntrinsic exP1 exQ1 exRempty exD0 exG0 exPost0).2.2.1 = exG0 :=
  ⟨((considerPairIntrinsic_frame exP1 exQ1 exRempty exD0 exG0 exPost0).2.1
      (by norm_num [Algorithm.ConsiderPairIntrinsic, d_density_pos_hi, d_density_neg_hi,
        exP1, exQ1, exRempty, exD0, exG0, exPost0, exMempty])).1,
    (considerPairIntrinsic_frame exP1 exQ1 exRempty exD0 exG0 exPost0).1⟩

/-- C1: at a concrete Approximate pair (one positive reference point at 1,
one negative at 3, query box at 0, both squared bandwidths 2) the produced
delta has `d_density_pos = [0, 0]` although
`count_pos * kernel_upper_bound_pos = 1/2`: the chained assignment at
nbc.cc:846-847 overwrites the upper endpoint the `Init` call just stored,
so the positive delta interval is not
`[0, count_pos * kernel_upper_bound_pos]` as the claim states. -/
theorem considerPairIntrinsic_pos_delta_dropped :
    (Algorithm.ConsiderPairIntrinsic exP1 exQ1 exR1 exD0 exG0 exPost0).1 =
        CPIOutcome.approximate ∧
    (Algorithm.ConsiderPairIntrinsic exP1 exQ1 exR1 exD0 exG0 exPost0).2.1 =
        ⟨⟨0, 0⟩, ⟨0, 0⟩⟩ ∧
    (exR1.stat.count_pos : ℚ) * d_density_pos_hi exP1 exQ1 exR1 = 1 / 2 ∧
    (exR1.stat.count_neg : ℚ) * d_density_neg_hi exP1 exQ1 exR1 = 0 := by
  norm_num [Algorithm.ConsiderPairIntrinsic, d_density_pos_hi, d_density_neg_hi,
    Kernel.EvalUnnormOnSq, Kernel.inv_bandwidth_sq, Kernel.bandwidth_sq,
    Bound.MinDistanceSqB, Bound.MaxDistanceSqB, DRange.minGapToR, DRange.maxGapToR,
    exP1, exQ1, exR1, exD0, exG0, exPost0, exMempty]

/-- C3 counterexample: at a concrete pair the outcome is Inclusion and the
negative class's moments are folded into the postponed state, although the
maximum distance between the negative reference bound and the query bound
(4) is not below the negative kernel's squared bandwidth (1): the compiled
inclusion test at nbc.cc:832-833 compares the combined reference bound
against the positive kernel's bandwidth only, not each class bound against
its own class's bandwidth. -/
theorem considerPairIntrinsic_inclusion_not_per_class :
    (Algorithm.ConsiderPairIntrinsic exP3 exQ1 exR3 exD0 exG0 exPost0).1 =
        CPIOutcome.inclusion ∧
    (Algorithm.ConsiderPairIntrinsic exP3 exQ1 exR3 exD0 exG0 exPost0).2.2.2.moment_info_neg =
        exPost0.moment_info_neg.Add exR3.stat.moment_info_neg ∧
    exPost0.moment_info_neg.Add exR3.stat.moment_info_neg ≠ exPost0.moment_info_neg ∧
    0 < exR3.stat.count_neg ∧
    ¬ (Bound.MaxDistanceSqB exR3.stat.bound_neg exQ1.bound <
        exP3.kernel_neg.bandwidth_sq) := by
  norm_num [Algorithm.ConsiderPairIntrinsic, d_density_pos_hi, d_density_neg_hi,
    Kernel.EvalUnnormOnSq, Kernel.inv_bandwidth_sq, Kernel.bandwidth_sq,
    Bound.MinDistanceSqB, Bound.MaxDistanceSqB, DRange.minGapToR, DRange.maxGapToR,
    MomentInfo.Add, exP3, exQ1, exR3, exD0, exG0, exPost0, exMempty]

/-- C3 amended: when the exclusion test fails, the outcome is Inclusion
exactly when the maximum distance between the combined reference bound and
the query bound is below the positive kernel's squared bandwidth; on that
path the function returns false, folds each class's moments into the
postponed state exactly when that class's count is nonzero, and leaves the
postponed label unchanged. -/
theorem considerPairIntrinsic_inclusion_combined_check
    (param : Param) (q_node r_node : ThorNode) (delta : Delta)
    (g : GlobalResult) (post : QPostponed)
    (hne : ¬ (d_density_pos_hi param q_node r_node = 0 ∧
      d_density_neg_hi param q_node r_node = 0)) :
    ((Algorithm.ConsiderPairIntrinsic param q_node r_node delta g post).1 =
        CPIOutcome.inclusion ↔
      Bound.MaxDistanceSqB r_node.bound q_node.bound < param.kernel_pos.bandwidth_sq) ∧
    ((Algorithm.ConsiderPairIntrinsic param q_node r_node delta g post).1 =
        CPIOutcome.inclusion →
      (Algorithm.ConsiderPairIntrinsic param q_node r_node delta g post).1.retVal =
          false ∧
        (0 < r_node.stat.count_pos →
          (Algorithm.ConsiderPairIntrinsic param q_node r_node delta g post).2.2.2.moment_info_pos =
            post.moment_info_pos.Add r_node.stat.moment_info_pos) ∧
        (r_node.stat.count_pos = 0 →
          (Algorithm.ConsiderPairIntrinsic param q_node r_node delta g post).2.2.2.moment_info_pos =
            post.moment_info_pos) ∧
        (0 < r_node.stat.count_neg →
          (Algorithm.ConsiderPairIntrinsic param q_node r_node delta g post).2.2.2.moment_info_neg =
            post.moment_info_neg.Add r_node.stat.moment_info_neg) ∧
        (r_node.stat.count_neg = 0 →
          (Algorithm.ConsiderPairIntrinsic param q_node r_node delta g post).2.2.2.moment_info_neg =
            post.moment_info_neg) ∧
        (Algorithm.ConsiderPairIntrinsic param q_node r_node delta g post).2.2.2.label =
          post.label) := by
  simp only [Algorithm.ConsiderPairIntrinsic]
  split_ifs <;> simp_all [CPIOutcome.retVal] <;> omega

/-- Witness for the amended C3 at the concrete inclusion input. -/
theorem considerPairIntrinsic_inclusion_combined_witness :
    (Algorithm.ConsiderPairIntrinsic exP3 exQ1 exR3 exD0 exG0 exPost0).1 =
        CPIOutcome.inclusion ↔
      Bound.MaxDistanceSqB exR3.bound exQ1.bound < exP3.kernel_pos.bandwidth_sq :=
  (considerPairIntrinsic_inclusion_combined_check exP3 exQ1 exR3 exD0 exG0 exPost0
    (by norm_num [d_density_pos_hi, d_density_neg_hi, Kernel.EvalUnnormOnSq,
      Kernel.inv_bandwidth_sq, Bound.MinDistanceSqB, DRange.minGapToR,
      exP3, exQ1, exR3])).1

/-- C4: with a valid summary label, `ConsiderQueryTermination` returns false
exactly when the label is already a single class or one of the dominance
inequalities over the summary intervals and prior bounds holds; a single
class is stored into the postponed label, positive dominance stores POS,
negative dominance stores NEG, and otherwise it returns true leaving the
postponed state unchanged. -/
theorem considerQueryTermination_cases
    (param : Param) (q_node : ThorNode) (qsr : QSummaryResult)
    (g : GlobalResult) (post : QPostponed)
    (hl : qsr.label = LAB_POS ∨ qsr.label = LAB_NEG ∨ qsr.label = LAB_EITHER) :
    ((Algorithm.ConsiderQueryTermination param q_node qsr g post).1 = false ↔
      qsr.label = LAB_POS ∨ qsr.label = LAB_NEG ∨
        param.const_pos.lo * qsr.density_pos.lo * q_node.stat.pi_pos.lo >
          param.const_neg.hi * qsr.density_neg.hi * q_node.stat.pi_neg.hi ∨
        param.const_neg.lo * qsr.density_neg.lo * q_node.stat.pi_neg.lo >
          param.const_pos.hi * qsr.density_pos.hi * q_node.stat.pi_pos.hi) ∧
    ((qsr.label = LAB_POS ∨ qsr.label = LAB_NEG) →
      Algorithm.ConsiderQueryTermination param q_node qsr g post =
        (false, { post with label := qsr.label })) ∧
    (qsr.label = LAB_EITHER →
      param.const_pos.lo * qsr.density_pos.lo * q_node.stat.pi_pos.lo >
        param.const_neg.hi * qsr.density_neg.hi * q_node.stat.pi_neg.hi →
      Algorithm.ConsiderQueryTermination param q_node qsr g post =
        (false, { post with label := LAB_POS })) ∧
    (qsr.label = LAB_EITHER →
      ¬ (param.const_pos.lo * qsr.density_pos.lo * q_node.stat.pi_pos.lo >
        param.const_neg.hi * qsr.density_neg.hi * q_node.stat.pi_neg.hi) →
      param.const_neg.lo * qsr.density_neg.lo * q_node.stat.pi_neg.lo >
        param.const_pos.hi * qsr.density_pos.hi * q_node.stat.pi_pos.hi →
      Algorithm.ConsiderQueryTermination param q_node qsr g post =
        (false, { post with label := LAB_NEG })) ∧
    (qsr.label = LAB_EITHER →
      ¬ (param.const_pos.lo * qsr.density_pos.lo * q_node.stat.pi_pos.lo >
        param.const_neg.hi * qsr.density_neg.hi * q_node.stat.pi_neg.hi) →
      ¬ (param.const_neg.lo * qsr.density_neg.lo * q_node.stat.pi_neg.lo >
        param.const_pos.hi * qsr.density_pos.hi * q_node.stat.pi_pos.hi) →
      Algorithm.ConsiderQueryTermination param q_node qsr g post = (true, post)) := by
  simp only [Algorithm.ConsiderQueryTermination]
  split_ifs <;> simp_all [LAB_POS, LAB_NEG, LAB_EITHER] <;> tauto

/-- Witness for C4 at a concrete positive-dominance input. -/
theorem considerQueryTermination_witness :
    Algorithm.ConsiderQueryTermination exP4 exQ4 exS4 exG0 exPost0 =
      (false, { exPost0 with label := LAB_POS }) :=
  (considerQueryTermination_cases exP4 exQ4 exS4 exG0 exPost0
      (Or.inr (Or.inr rfl))).2.2.1 rfl
    (by norm_num [exP4, exQ4, exS4])

/-- C6: both label-applying operations (`QPostponed::ApplyPostponed` and
`QResult::ApplyPostponed`) change the label only by bitwise AND with the
incoming evidence; a label already narrowed to POS or NEG either stays
unchanged or the operation's contradiction assertion fails; and the result
is NEITHER exactly when the assertion fails. -/
theorem label_narrowing_monotone
    (p other : QPostponed) (r : QResult) (param : Param) (q : List ℚ)
    (hp : p.label < 4) (ho : other.label < 4) (hr : r.label < 4) :
    (p.ApplyPostponed other).label = p.label &&& other.label ∧
    (r.ApplyPostponed param other q).label = r.label &&& other.label ∧
    ((p.label = LAB_POS ∨ p.label = LAB_NEG) →
      (p.ApplyPostponed other).label = p.label ∨ ¬ p.applyAssertOk other) ∧
    ((r.label = LAB_POS ∨ r.label = LAB_NEG) →
      (r.ApplyPostponed param other q).label = r.label ∨ ¬ r.applyAssertOk other) ∧
    ((p.ApplyPostponed other).label = LAB_NEITHER ↔ ¬ p.applyAssertOk other) ∧
    ((r.ApplyPostponed param other q).label = LAB_NEITHER ↔ ¬ r.applyAssertOk other) := by
  refine ⟨rfl, rfl, ?_, ?_, ?_, ?_⟩
  · intro hs
    have h := land_single_class p.label other.label hp ho
      (by simpa [LAB_POS, LAB_NEG] using hs)
    simpa [QPostponed.ApplyPostponed, QPostponed.applyAssertOk, LAB_NEITHER,
      not_not] using h
  · intro hs
    have h := land_single_class r.label other.label hr ho
      (by simpa [LAB_POS, LAB_NEG] using hs)
    simpa [QResult.ApplyPostponed, QResult.applyAssertOk, LAB_NEITHER,
      not_not] using h
  · simp [QPostponed.ApplyPostponed, QPostponed.applyAssertOk, LAB_NEITHER, not_not]
  · simp [QResult.ApplyPostponed, QResult.applyAssertOk, LAB_NEITHER, not_not]

/-- Witness for C6: a POS-labeled postponed state absorbing EITHER evidence
keeps its label (or would trip the assertion). -/
theorem label_narrowing_witness :
    (exPostPos.ApplyPostponed exPost0).label = exPostPos.label ∨
      ¬ exPostPos.applyAssertOk exPost0 :=
  (label_narrowing_monotone exPostPos exPost0 exQres exP1 [0]
      (by norm_num [exPostPos, LAB_POS]) (by norm_num [exPost0, LAB_EITHER])
      (by norm_num [exQres, LAB_EITHER])).2.2.1 (Or.inl rfl)

/-- C7: merging well-formed moment summaries is commutative and associative,
and a summary with zero count is absorbed by `Add` without changing any
field of the target. -/
theorem momentInfo_add_comm_assoc
    (a b c e m : MomentInfo) (dim : ℕ)
    (ha : a.wf dim) (hb : b.wf dim) (hc : c.wf dim) (he : e.count = 0) :
    a.Add b = b.Add a ∧
    (a.Add b).Add c = a.Add (b.Add c) ∧
    m.Add e = m := by
  have comm : ∀ x y : MomentInfo, x.wf dim → y.wf dim → x.Add y = y.Add x := by
    intro x y hx hy
    by_cases hy0 : y.count = 0
    · by_cases hx0 : x.count = 0
      · obtain ⟨hxm, hxs⟩ := hx.2 hx0
        obtain ⟨hym, hys⟩ := hy.2 hy0
        simp only [MomentInfo.Add, hx0, hy0]
        cases x
        cases y
        simp_all
      · have hz : List.zipWith (· + ·) y.mass x.mass = x.mass := by
          rw [hy.2 hy0 |>.1]
          exact zipAdd_zero_left dim x.mass hx.1
        simp [MomentInfo.Add, hy0, hx0, hz, hy.2 hy0 |>.2]
    · by_cases hx0 : x.count = 0
      · have hz : List.zipWith (· + ·) x.mass y.mass = y.mass := by
          rw [hx.2 hx0 |>.1]
          exact zipAdd_zero_left dim y.mass hy.1
        simp [MomentInfo.Add, hy0, hx0, hz, hx.2 hx0 |>.2]
      · simp [MomentInfo.Add, hy0, hx0, zipAdd_comm x.mass y.mass,
          add_comm x.sumsq y.sumsq, add_comm x.count y.count]
  refine ⟨comm a b ha hb, ?_, by simp [MomentInfo.Add, he]⟩
  by_cases hc0 : c.count = 0
  · simp [MomentInfo.Add, hc0]
  · by_cases hb0 : b.count = 0
    · have hbc : b.Add c = c := by
        have h1 : List.zipWith (· + ·) b.mass c.mass = c.mass := by
          rw [hb.2 hb0 |>.1]
          exact zipAdd_zero_left dim c.mass hc.1
        simp [MomentInfo.Add, hc0, h1, hb.2 hb0 |>.2, hb0]
      rw [hbc]
      simp [MomentInfo.Add, hb0]
    · have hbc : (b.Add c).count ≠ 0 := by
        simp [MomentInfo.Add, hc0]
      simp [MomentInfo.Add, hc0, hb0, hbc, zipAdd_assoc, add_assoc]

/-- Witness for C7 at concrete one-point summaries. -/
theorem momentInfo_add_comm_assoc_witness :
    exM1.Add exM2 = exM2.Add exM1 ∧
    (exM1.Add exM2).Add exM3 = exM1.Add (exM2.Add exM3) ∧
    exM1.Add exMempty = exM1 :=
  momentInfo_add_comm_assoc exM1 exM2 exM3 exMempty exM1 1
    (by norm_num [MomentInfo.wf, exM1]) (by norm_num [MomentInfo.wf, exM2])
    (by norm_num [MomentInfo.wf, exM3]) rfl

/-- C10: when the postponed state carries no information the summary is left
unchanged and the uninitialized `change_made` is returned as-is (modelled as
`none`); when it carries a narrowed label or a non-empty moment summary, the
function returns true. -/
theorem qSummaryResult_applyPostponed_change_made
    (s : QSummaryResult) (param : Param) (post : QPostponed) (qn : ThorNode) :
    (post.label = LAB_EITHER → post.moment_info_pos.count = 0 →
      post.moment_info_neg.count = 0 →
      QSummaryResult.ApplyPostponed s param post qn = (s, none)) ∧
    ((post.label ≠ LAB_EITHER ∨ post.moment_info_pos.count ≠ 0 ∨
        post.moment_info_neg.count ≠ 0) →
      (QSummaryResult.ApplyPostponed s param post qn).2 = some true) := by
  constructor
  · intro h1 h2 h3
    simp [QSummaryResult.ApplyPostponed, h1, h2, h3, MomentInfo.is_empty]
  · intro h
    simp only [QSummaryResult.ApplyPostponed, MomentInfo.is_empty]
    rcases h with h | h | h <;> split_ifs <;> simp_all

/-- Witness for C10 with a narrowed-label postponed state. -/
theorem qSummaryResult_applyPostponed_witness :
    (QSummaryResult.ApplyPostponed exS0 exP1 exPostPos exQ1).2 = some true :=
  (qSummaryResult_applyPostponed_change_made exS0 exP1 exPostPos exQ1).2
    (Or.inl (by norm_num [exPostPos, LAB_POS, LAB_EITHER]))

/-- C8 counterexample: on the empty moment summary the debug run of
`ComputeKernelSumRange` performs the `center_dot_center` division by `count`
(nbc.cc:250) as its first action, before the `DEBUG_ASSERT(count != 0)` at
nbc.cc:252 fires, so the guard does not fire before all divide-by-count
arithmetic as the claim states. -/
theorem computeKernelSumRange_divides_before_guard :
    (exMempty.ComputeKernelSumRangeDbg exK1 exB1).1 =
      [CKREvent.divByCount, CKREvent.assertFail] := by
  norm_num [MomentInfo.ComputeKernelSumRangeDbg, exMempty]

/-- C8 amended: calling `ComputeKernelSumRange` on an empty moment summary
makes the debug assertion fail so no range value is returned (a distinct
error rather than a NaN-carrying result), but the guard fires only after the
centroid self-dot-product division by `count` has been performed. -/
theorem computeKernelSumRange_empty_guard_fails
    (m : MomentInfo) (k : Kernel) (b : Bound) (h : m.count = 0) :
    (m.ComputeKernelSumRangeDbg k b).2 = none ∧
    (m.ComputeKernelSumRangeDbg k b).1 =
      [CKREvent.divByCount, CKREvent.assertFail] := by
  simp [MomentInfo.ComputeKernelSumRangeDbg, h]

/-- Witness for the amended C8 at the concrete empty summary. -/
theorem computeKernelSumRange_empty_guard_witness :
    (exMempty.ComputeKernelSumRangeDbg exK1 exB1).2 = none ∧
    (exMempty.ComputeKernelSumRangeDbg exK1 exB1).1 =
      [CKREvent.divByCount, CKREvent.assertFail] :=
  computeKernelSumRange_empty_guard_fails exMempty exK1 exB1 rfl

/-- C5: for a non-empty moment summary and a positive-bandwidth kernel, the
exact kernel sum at any query point inside the query bound lies within the
interval returned by `ComputeKernelSumRange`, whose endpoints evaluate the
same closed form at the extreme squared distances between the query bound
and the centroid `mass/count`. -/
theorem computeKernelSumRange_sound
    (m : MomentInfo) (k : Kernel) (b : Bound) (q : List ℚ)
    (hc : 0 < m.count) (hk : 0 < k.bsq) (hq : inBound q b)
    (hm : m.mass.length = b.length) :
    (m.ComputeKernelSumRange k b).lo ≤ m.ComputeKernelSum k q ∧
    m.ComputeKernelSum k q ≤ (m.ComputeKernelSumRange k b).hi := by
  have hc0 : m.count ≠ 0 := hc.ne'
  have hqb : q.length = b.length := List.Forall₂.length_eq hq
  have hql : q.length = m.mass.length := by rw [hqb, hm]
  have hcl : (m.mass.map (fun x => (1 / (m.count : ℚ)) * x)).length = b.length := by
    simpa using hm
  have hid := computeKernelSum_eq_closed_form m k q hc0 hql
  have hmin := minDistanceSq_le_distSq b q
    (m.mass.map (fun x => (1 / (m.count : ℚ)) * x)) hq hcl
  have hmax := distSq_le_maxDistanceSq b q
    (m.mass.map (fun x => (1 / (m.count : ℚ)) * x)) hq hcl
  simp only [MomentInfo.ComputeKernelSumRange]
  rw [hid]
  constructor
  · exact computeKernelSumD_antitone m k (dot m.mass m.mass / m.count / m.count)
      (distSq q (m.mass.map (fun x => (1 / (m.count : ℚ)) * x)))
      (Bound.MaxDistanceSq b (m.mass.map (fun x => (1 / (m.count : ℚ)) * x))) hk hmax
  · exact computeKernelSumD_antitone m k (dot m.mass m.mass / m.count / m.count)
      (Bound.MinDistanceSq b (m.mass.map (fun x => (1 / (m.count : ℚ)) * x)))
      (distSq q (m.mass.map (fun x => (1 / (m.count : ℚ)) * x))) hk hmin

/-- Witness for C5: the one-point summary at 1, bandwidth² 2, unit query box
and query point 0. -/
theorem computeKernelSumRange_sound_witness :
    (exM1.ComputeKernelSumRange exK1 exB1).lo ≤ exM1.ComputeKernelSum exK1 [0] ∧
    exM1.ComputeKernelSum exK1 [0] ≤ (exM1.ComputeKernelSumRange exK1 exB1).hi :=
  computeKernelSumRange_sound exM1 exK1 exB1 [0] (by norm_num [exM1])
    (by norm_num [exK1]) (by norm_num [inBound, exB1]) (by norm_num [exM1, exB1])

end Nbc
